import Mathlib

/-!
Verification of the multi-repository deployment orchestrator shipped with this
repository.  Two revisions of the orchestrator script exist:

* `Deploy` models the current revision (`public/deploy.sh`): three-field fleet
  records `name|url|port`, per-service container discovery, and a routing file
  regenerated from scratch on every run after the per-service deploy loop.
* `V1` models the earlier revision: four-field fleet records
  `name|url|container|port`, with the routing file written up front by
  `setup_caddy` before any service is synced.

Shell strings are modelled as Lean `String`s, external command outcomes as
explicit boolean/optional inputs, and the run itself as a pure function from
those inputs to an exit code, an event trace, a failure counter and the final
contents of the routing file.
-/

/-- Result of `docker inspect` on one container of a compose project: the
container name and the TCP ports it exposes (as decimal strings). -/
structure Container where
  cname : String
  ports : List String
deriving DecidableEq, Repr

/-- One reverse-proxy block of the generated Caddyfile, in structured form:
`scheme``repoName`.ROOT_DOMAIN reverse-proxied to `upstream`:`port`. -/
structure RouteBlock where
  scheme : String
  repoName : String
  upstream : String
  port : String
deriving DecidableEq, Repr

/-- TLS strategy chosen by the auto-detection step. -/
inductive TlsMode where
  | direct
  | passthrough
deriving DecidableEq, Repr

/-- Value of the shell variable `public_ip`: the output of
`curl -s --max-time 3 ifconfig.me`, or the fallback string from
`|| echo "unknown"` when curl times out or fails. -/
def publicIpOf (curlResult : Option String) : String :=
  curlResult.getD "unknown"

/-- The shell test `[ "$public_ip" != "unknown" ] && [ "$public_ip" = "$domain_ip" ]`
that sets `ENABLE_TLS`. -/
def enableTls (publicIp domainIp : String) : Bool :=
  (publicIp != "unknown") && (publicIp == domainIp)

/-- TLS mode selected by the script, as a function of the raw curl outcome and
the string produced by the DNS-resolution pipeline for the probe subdomain
(that pipeline yields the empty string when resolution fails). -/
def detectTlsMode (curlResult : Option String) (domainIp : String) : TlsMode :=
  if enableTls (publicIpOf curlResult) domainIp then TlsMode.direct else TlsMode.passthrough

/-- Scheme written in front of the site address: `local caddy_scheme="http://"`
overridden to the empty string when `ENABLE_TLS` is `"true"`. -/
def caddyScheme (tls : Bool) : String :=
  if tls then "" else "http://"

namespace Deploy

/-- The hardcoded `REPOS` array of `public/deploy.sh`. -/
def REPOS : List String :=
  [ "chess|https://github.com/namanvashistha/chess.git|9000"
  , "foodly|https://github.com/namanvashistha/foodly.git|80"
  , "hyperbole|https://github.com/namanvashistha/hyperbole.git|8080"
  , "limedb|https://github.com/namanvashistha/limedb.git|3000" ]

/-- Split a character list at every pipe, the way `IFS='|'` word-splitting
cuts a record into fields (an empty input yields one empty field). -/
def splitPipe : List Char → List (List Char)
  | [] => [[]]
  | c :: rest =>
    if c = '|' then [] :: splitPipe rest
    else
      match splitPipe rest with
      | [] => [[c]]
      | x :: xs => (c :: x) :: xs

/-- Rejoin fields with pipes, for the remainder that `read` stuffs into its
last variable. -/
def joinPipe : List (List Char) → List Char
  | [] => []
  | [x] => x
  | x :: xs => x ++ '|' :: joinPipe xs

/-- Semantics of `IFS='|' read -r repo_name repo_url internal_port <<< "$1"`:
the first two pipe-separated fields, with everything remaining (still
pipe-joined) in the third variable; missing fields read as empty. -/
def readThree (s : String) : String × String × String :=
  match splitPipe s.data with
  | [] => ("", "", "")
  | [a] => (String.mk a, "", "")
  | [a, b] => (String.mk a, String.mk b, "")
  | a :: b :: rest => (String.mk a, String.mk b, String.mk (joinPipe rest))

/-- The `repo_name` variable parsed from a fleet record. -/
def nameOf (record : String) : String :=
  (readThree record).1

/-- The `internal_port` variable parsed from a fleet record, after the default
`internal_port="${internal_port:-80}"`. -/
def portOf (record : String) : String :=
  if (readThree record).2.2 = "" then "80" else (readThree record).2.2

/-- Outcomes of the external commands one `deploy_repo` call can run. -/
structure RepoEnv where
  checkoutExists : Bool
  cloneOk : Bool
  cdOk : Bool
  pullMainOk : Bool
  pullMasterOk : Bool
  composeFileExists : Bool
  composeUpOk : Bool
  containers : List Container
deriving DecidableEq, Repr

/-- Observable operations performed by a run of the current revision. -/
inductive Event where
  | clone (repo : String)
  | pull (repo : String)
  | composeUp (repo : String)
  | networkConnect (cname : String)
  | routeAppend (repo : String)
  | truncateCaddyfile
  | removeProxy
  | startProxy
deriving DecidableEq, Repr

/-- Result of one `deploy_repo` call: its return status, the operations it ran
and the route blocks it appended to the Caddyfile. -/
structure RepoResult where
  ok : Bool
  events : List Event
  blocks : List RouteBlock
deriving DecidableEq, Repr

/-- The discovery loop: scan `docker compose ps -q` in order and keep the first
container whose exposed ports include the declared internal port. -/
def discoverContainer (port : String) (cs : List Container) : Option String :=
  (cs.find? fun c => c.ports.contains port).map Container.cname

/-- Continuation of `deploy_repo` after the clone/pull step: `cd` into the
checkout, require a compose manifest, run `docker compose up`, then discover
the live container and, if one is found, bridge it and append its route. -/
def afterSync (tls : Bool) (name port : String) (env : RepoEnv)
    (syncEvents : List Event) : RepoResult :=
  if !env.cdOk then ⟨false, syncEvents, []⟩
  else if !env.composeFileExists then ⟨false, syncEvents, []⟩
  else if !env.composeUpOk then ⟨false, syncEvents ++ [Event.composeUp name], []⟩
  else
    match discoverContainer port env.containers with
    | some c =>
        ⟨true,
         syncEvents ++ [Event.composeUp name, Event.networkConnect c, Event.routeAppend name],
         [⟨caddyScheme tls, name, c, port⟩]⟩
    | none => ⟨true, syncEvents ++ [Event.composeUp name], []⟩

/-- The `deploy_repo` function of `public/deploy.sh`: clone the repository when
no checkout exists, otherwise stash and pull (`main` falling back to
`master`), then build, start and route the service.  Any early `return 1`
yields `ok = false`. -/
def deploy_repo (tls : Bool) (record : String) (env : RepoEnv) : RepoResult :=
  let name := nameOf record
  let port := portOf record
  if env.checkoutExists then
    if !env.cdOk then ⟨false, [], []⟩
    else if !env.pullMainOk && !env.pullMasterOk then ⟨false, [Event.pull name], []⟩
    else afterSync tls name port env [Event.pull name]
  else
    if !env.cloneOk then ⟨false, [Event.clone name], []⟩
    else afterSync tls name port env [Event.clone name]

/-- Sync failure in the sense of the specification: clone failed, or the
checkout could not be entered, or both pull fallbacks failed. -/
def syncFailed (env : RepoEnv) : Bool :=
  if env.checkoutExists then !env.cdOk || (!env.pullMainOk && !env.pullMasterOk)
  else !env.cloneOk || !env.cdOk

/-- Missing build manifest, reached only when the sync step succeeded. -/
def manifestMissing (env : RepoEnv) : Bool :=
  !syncFailed env && !env.composeFileExists

/-- Build/start failure, reached only when sync succeeded and a manifest
exists. -/
def buildFailed (env : RepoEnv) : Bool :=
  !syncFailed env && env.composeFileExists && !env.composeUpOk

/-- Discovery failure: the service built and started but no container of its
group exposes the declared internal port. -/
def discoveryFailed (port : String) (env : RepoEnv) : Bool :=
  !syncFailed env && env.composeFileExists && env.composeUpOk
    && (discoverContainer port env.containers).isNone

/-- The failures that make `deploy_repo` return nonzero and hence increment
`failed_repos`. -/
def countedFailure (env : RepoEnv) : Bool :=
  syncFailed env || manifestMissing env || buildFailed env

/-- Per-service recoverable error in the sense of the specification: sync
failure, missing build manifest, build/start failure, or discovery failure. -/
def recoverableError (port : String) (env : RepoEnv) : Bool :=
  countedFailure env || discoveryFailed port env

/-- Outcomes of every external command one whole run of `public/deploy.sh` can
observe.  `renv i` is the outcome environment of the `i`-th fleet entry;
`initialCaddyfile` is whatever a previous run left in the routing file. -/
structure Env where
  lockExists : Bool
  dockerOk : Bool
  installOk : Bool
  networkExists : Bool
  curlResult : Option String
  domainIp : String
  renv : Nat → RepoEnv
  caddyRunOk : Bool
  initialCaddyfile : List RouteBlock

/-- Observable outcome of one whole run: process exit code, whether the final
summary was reached, the `failed_repos` counter, the final contents of the
routing file and the trace of operations performed. -/
structure RunResult where
  exitCode : Nat
  reachedSummary : Bool
  failedRepos : Nat
  caddyFile : List RouteBlock
  events : List Event
deriving DecidableEq, Repr

/-- The `ENABLE_TLS` flag computed by `main` before the deploy loop. -/
def tlsOf (env : Env) : Bool :=
  enableTls (publicIpOf env.curlResult) env.domainIp

/-- The `for repo in "${REPOS[@]}"` loop of `main`: deploy each fleet entry in
order, counting the entries whose `deploy_repo` returned nonzero and
accumulating events and appended route blocks. -/
def deployLoop (tls : Bool) (renv : Nat → RepoEnv) :
    List String → Nat → Nat × List Event × List RouteBlock
  | [], _ => (0, [], [])
  | r :: rest, i =>
    let res := deploy_repo tls r (renv i)
    let t := deployLoop tls renv rest (i + 1)
    ((if res.ok then t.1 else t.1 + 1), res.events ++ t.2.1, res.blocks ++ t.2.2)

/-- Events of the proxy restart step at the end of `main`: `docker rm -f`
always runs, then `docker run` is attempted (on failure the script exits 1
right after, so the attempt is observed on both paths). -/
def proxyEvents : List Event :=
  [Event.removeProxy, Event.startProxy]

/-- The `main` function of `public/deploy.sh`: acquire the lock (exiting 1 if
the marker exists), ensure docker (exiting 1 if absent after the install
attempt), ensure the shared network, detect the TLS mode, truncate the
Caddyfile, run the deploy loop, restart the proxy (exiting 1 on failure) and
print the summary, exiting 0 whether or not `failed_repos` is nonzero. -/
def mainRun (fleet : List String) (env : Env) : RunResult :=
  if env.lockExists then
    { exitCode := 1, reachedSummary := false, failedRepos := 0
      caddyFile := env.initialCaddyfile, events := [] }
  else if !env.dockerOk && !env.installOk then
    { exitCode := 1, reachedSummary := false, failedRepos := 0
      caddyFile := env.initialCaddyfile, events := [] }
  else
    let L := deployLoop (tlsOf env) env.renv fleet 0
    if !env.caddyRunOk then
      { exitCode := 1, reachedSummary := false, failedRepos := L.1
        caddyFile := L.2.2, events := Event.truncateCaddyfile :: L.2.1 ++ proxyEvents }
    else
      { exitCode := 0, reachedSummary := true, failedRepos := L.1
        caddyFile := L.2.2, events := Event.truncateCaddyfile :: L.2.1 ++ proxyEvents }

/-- State of the on-disk lock marker and of the `trap ... EXIT` registration,
the two pieces of state the lock manager manipulates. -/
structure LockState where
  lockExists : Bool
  trapArmed : Bool
deriving DecidableEq, Repr

/-- The top-level phases of `main`, in source order; `deployService i` is the
`i`-th iteration of the deploy loop. -/
inductive MStep where
  | ensureDirs
  | acquire
  | installDocker
  | ensureNetwork
  | detectTls
  | truncateCaddy
  | deployService (i : Nat)
  | restartProxy
  | summary
deriving DecidableEq, Repr

/-- The phase list `main` executes for a given fleet. -/
def mainSteps (fleet : List String) : List MStep :=
  [MStep.ensureDirs, MStep.acquire, MStep.installDocker, MStep.ensureNetwork,
   MStep.detectTls, MStep.truncateCaddy]
  ++ (List.range fleet.length).map MStep.deployService
  ++ [MStep.restartProxy, MStep.summary]

/-- Effect of one phase on the lock state: `halt` means the phase makes the
process exit (`exit 1`), `next` continues with the new state.  `acquire`
either exits (marker already present, trap never armed by this run) or
atomically creates the marker and registers the `trap 'rm -rf ...' EXIT`
release; no other phase touches the marker or the trap. -/
inductive StepOutcome where
  | next (s : LockState)
  | halt (s : LockState)

/-- Lock-relevant semantics of each phase of `main`. -/
def lockStep (env : Env) (s : LockState) : MStep → StepOutcome
  | MStep.acquire =>
      if s.lockExists then StepOutcome.halt s
      else StepOutcome.next ⟨true, true⟩
  | MStep.installDocker =>
      if env.dockerOk || env.installOk then StepOutcome.next s else StepOutcome.halt s
  | MStep.restartProxy =>
      if env.caddyRunOk then StepOutcome.next s else StepOutcome.halt s
  | _ => StepOutcome.next s

/-- Run the phase list, stopping early when a phase exits the process or when
a terminating signal arrives (`sig = some k` kills the process after `k`
further phases).  The caller applies the `EXIT` trap to the state returned. -/
def runLockSteps (env : Env) : List MStep → LockState → Option Nat → LockState
  | [], s, _ => s
  | _, s, some 0 => s
  | st :: rest, s, sig =>
      match lockStep env s st with
      | StepOutcome.halt sExit => sExit
      | StepOutcome.next sNext => runLockSteps env rest sNext (sig.map fun k => k - 1)

/-- Semantics of `trap 'rm -rf "$LOCK_FILE.dir"' EXIT`: when the process exits
on any path after the trap was armed, the marker is removed. -/
def exitCleanup (s : LockState) : LockState :=
  if s.trapArmed then ⟨false, s.trapArmed⟩ else s

/-- Lock state left on disk after the process terminates, whether by normal
completion, a fatal `exit 1`, or a terminating signal after `k` phases. -/
def finalLockState (fleet : List String) (env : Env) (sig : Option Nat) : LockState :=
  exitCleanup (runLockSteps env (mainSteps fleet) ⟨env.lockExists, false⟩ sig)

end Deploy

namespace V1

/-- The hardcoded `REPOS` array of the earlier script revision, whose records
carry four fields `repo_name|git_url|container_name|internal_port`. -/
def REPOS : List String :=
  [ "chess|https://github.com/namanvashistha/chess.git|chess_go-app_1|9000"
  , "foodly|https://github.com/namanvashistha/foodly.git|foodly_app_1|80"
  , "hyperbole|https://github.com/namanvashistha/hyperbole.git|hyperbole-web|8080"
  , "limedb|https://github.com/namanvashistha/limedb.git|limedb_web_1|3000" ]

/-- Semantics of the parameter expansion `${repo_info%%|*}`: the characters
before the first pipe (the whole string when it has no pipe). -/
def firstField (s : String) : String :=
  String.mk (s.data.takeWhile fun c => c != '|')

/-- Semantics of the parameter expansion `${repo_info##*|}`: the characters
after the last pipe (the whole string when it has no pipe). -/
def lastField (s : String) : String :=
  String.mk ((s.data.reverse.takeWhile fun c => c != '|').reverse)

/-- A four-field fleet record assembled the way the `REPOS` array writes
them. -/
def mkRecord4 (name url cname port : String) : String :=
  name ++ "|" ++ url ++ "|" ++ cname ++ "|" ++ port

/-- Semantics of
`IFS='|' read -r repo_name repo_url container_name internal_port <<< "$repo_info"`:
the first three pipe-separated fields, with everything remaining in the last
variable. -/
def readFour (s : String) : String × String × String × String :=
  match Deploy.splitPipe s.data with
  | [] => ("", "", "", "")
  | [a] => (String.mk a, "", "", "")
  | [a, b] => (String.mk a, String.mk b, "", "")
  | [a, b, c] => (String.mk a, String.mk b, String.mk c, "")
  | a :: b :: c :: rest =>
      (String.mk a, String.mk b, String.mk c, String.mk (Deploy.joinPipe rest))

/-- Outcomes of the external commands one `deploy_repo` call of the earlier
revision can run. -/
structure RepoEnv where
  checkoutExists : Bool
  cloneOk : Bool
  cdOk : Bool
  pullMainOk : Bool
  pullMasterOk : Bool
  composeFileExists : Bool
  hasComposePlugin : Bool
  hasComposeLegacy : Bool
  composeUpOk : Bool
deriving DecidableEq, Repr

/-- Observable operations performed by a run of the earlier revision. -/
inductive Event where
  | clone (repo url : String)
  | pull (repo : String)
  | composeUp (repo : String)
  | networkConnect (cname : String)
  | routeAppend (repo : String)
  | truncateCaddyfile
  | removeProxy
  | startProxy
deriving DecidableEq, Repr

/-- Result of one `deploy_repo` call of the earlier revision. -/
structure RepoResult where
  ok : Bool
  events : List Event
deriving DecidableEq, Repr

/-- Continuation of the earlier revision of `deploy_repo` after the clone/pull
step: enter the checkout, require a compose manifest, then run
`docker compose up` through the plugin, falling back to legacy
`docker-compose`, and fail when neither exists. -/
def afterSync (name : String) (env : RepoEnv) (syncEvents : List Event) : RepoResult :=
  if !env.cdOk then ⟨false, syncEvents⟩
  else if !env.composeFileExists then ⟨false, syncEvents⟩
  else if env.hasComposePlugin then
    ⟨env.composeUpOk, syncEvents ++ [Event.composeUp name]⟩
  else if env.hasComposeLegacy then
    ⟨env.composeUpOk, syncEvents ++ [Event.composeUp name]⟩
  else ⟨false, syncEvents⟩

/-- The `deploy_repo` function of the earlier revision.  Note how the clone
URL is taken from `${repo_info##*|}` — the text after the LAST pipe of the
record — while the records carry four fields. -/
def deploy_repo (record : String) (env : RepoEnv) : RepoResult :=
  let name := firstField record
  let url := lastField record
  if env.checkoutExists then
    if !env.cdOk then ⟨false, []⟩
    else if !env.pullMainOk && !env.pullMasterOk then ⟨false, [Event.pull name]⟩
    else afterSync name env [Event.pull name]
  else
    if !env.cloneOk then ⟨false, [Event.clone name url]⟩
    else afterSync name env [Event.clone name url]

/-- One route block of the Caddyfile written by `setup_caddy`, for one fleet
record, with the defaults `container_name="${container_name:-$repo_name}"`
and `internal_port="${internal_port:-80}"` applied. -/
def mkBlock (tls : Bool) (record : String) : RouteBlock :=
  let f := readFour record
  let cname := if f.2.2.1 = "" then f.1 else f.2.2.1
  let port := if f.2.2.2 = "" then "80" else f.2.2.2
  ⟨caddyScheme tls, f.1, cname, port⟩

/-- Events of the Caddyfile-generation loop of `setup_caddy`: truncate the
file, then per fleet record bridge the configured container to the shared
network and append its route block. -/
def setupTrace (fleet : List String) : List Event :=
  Event.truncateCaddyfile ::
    (fleet.map fun r =>
      let f := readFour r
      let cname := if f.2.2.1 = "" then f.1 else f.2.2.1
      [Event.networkConnect cname, Event.routeAppend f.1]).flatten

/-- Outcomes of every external command one whole run of the earlier revision
can observe. -/
structure Env where
  lockExists : Bool
  dockerInstalled : Bool
  installOk : Bool
  composeAvailable : Bool
  networkExists : Bool
  networkCreateOk : Bool
  curlResult : Option String
  domainIp : String
  proxyContainerExists : Bool
  caddyRunOk : Bool
  renv : Nat → RepoEnv

/-- Observable outcome of one whole run of the earlier revision. -/
structure RunResult where
  exitCode : Nat
  reachedSummary : Bool
  failedRepos : Nat
  caddyFile : List RouteBlock
  trace : List Event
deriving DecidableEq, Repr

/-- The deploy loop of the earlier revision of `main`. -/
def deployLoop (renv : Nat → RepoEnv) : List String → Nat → Nat × List Event
  | [], _ => (0, [])
  | r :: rest, i =>
    let res := deploy_repo r (renv i)
    let t := deployLoop renv rest (i + 1)
    ((if res.ok then t.1 else t.1 + 1), res.events ++ t.2)

/-- Events of the proxy restart at the end of `setup_caddy`: the existing
`caddy_proxy` container is removed when present, then `docker run` is
attempted. -/
def proxyTrace (env : Env) : List Event :=
  (if env.proxyContainerExists then [Event.removeProxy] else []) ++ [Event.startProxy]

/-- The `main` function of the earlier revision: acquire the lock, ensure
docker and compose, ensure the network (each fatal on failure), then run
`setup_caddy` — which detects the TLS mode, writes one route block per fleet
record and starts the proxy (fatal on failure) — and only then sync, build
and start each service, finally exiting 0 whether or not `failed_repos` is
nonzero. -/
def run (fleet : List String) (env : Env) : RunResult :=
  if env.lockExists then
    { exitCode := 1, reachedSummary := false, failedRepos := 0, caddyFile := [], trace := [] }
  else if !env.dockerInstalled && !env.installOk then
    { exitCode := 1, reachedSummary := false, failedRepos := 0, caddyFile := [], trace := [] }
  else if !env.composeAvailable then
    { exitCode := 1, reachedSummary := false, failedRepos := 0, caddyFile := [], trace := [] }
  else if !env.networkExists && !env.networkCreateOk then
    { exitCode := 1, reachedSummary := false, failedRepos := 0, caddyFile := [], trace := [] }
  else
    let tls := enableTls (publicIpOf env.curlResult) env.domainIp
    let caddy := fleet.map (mkBlock tls)
    let pre := setupTrace fleet ++ proxyTrace env
    if !env.caddyRunOk then
      { exitCode := 1, reachedSummary := false, failedRepos := 0
        caddyFile := caddy, trace := pre }
    else
      let L := deployLoop env.renv fleet 0
      { exitCode := 0, reachedSummary := true, failedRepos := L.1
        caddyFile := caddy, trace := pre ++ L.2 }

/-- Whether an event writes a route block to the Caddyfile. -/
def isRouteWrite : Event → Bool
  | Event.routeAppend _ => true
  | _ => false

/-- Whether an event syncs or builds a service (a clone, pull or compose-up
operation). -/
def isDeployOp : Event → Bool
  | Event.clone _ _ => true
  | Event.pull _ => true
  | Event.composeUp _ => true
  | _ => false

end V1

/-! Concrete environments used by the witnesses below. -/

/-- State of a step outcome, whether the phase continued or exited. -/
def stepState : Deploy.StepOutcome → Deploy.LockState
  | Deploy.StepOutcome.next s => s
  | Deploy.StepOutcome.halt s => s

/-- A fully healthy per-service environment: fresh clone, manifest present,
build succeeds, one container exposing port 9000. -/
def repoEnvOk : Deploy.RepoEnv :=
  { checkoutExists := false, cloneOk := true, cdOk := true, pullMainOk := true
    pullMasterOk := true, composeFileExists := true, composeUpOk := true
    containers := [⟨"chess_app", ["9000"]⟩] }

/-- A per-service environment whose build succeeds but whose container group
exposes only port 5432, so discovery of any other port fails. -/
def repoEnvNoPort : Deploy.RepoEnv :=
  { checkoutExists := false, cloneOk := true, cdOk := true, pullMainOk := true
    pullMasterOk := true, composeFileExists := true, composeUpOk := true
    containers := [⟨"db_only", ["5432"]⟩] }

/-- A per-service environment whose clone fails. -/
def repoEnvCloneFail : Deploy.RepoEnv :=
  { checkoutExists := false, cloneOk := false, cdOk := true, pullMainOk := true
    pullMasterOk := true, composeFileExists := true, composeUpOk := true
    containers := [] }

/-- A fully healthy per-service environment for the earlier revision. -/
def repoEnvV1Ok : V1.RepoEnv :=
  { checkoutExists := false, cloneOk := true, cdOk := true, pullMainOk := true
    pullMasterOk := true, composeFileExists := true, hasComposePlugin := true
    hasComposeLegacy := false, composeUpOk := true }

/-- A healthy whole-run environment: no lock held, docker present, network
present, passthrough TLS, proxy start succeeds, every service healthy. -/
def envOk : Deploy.Env :=
  { lockExists := false, dockerOk := true, installOk := true, networkExists := true
    curlResult := some "203.0.113.7", domainIp := "198.51.100.9"
    renv := fun _ => repoEnvOk, caddyRunOk := true, initialCaddyfile := [] }

/-- The healthy environment with the lock marker already present on disk. -/
def envLocked : Deploy.Env :=
  { envOk with lockExists := true
               initialCaddyfile := [⟨"http://", "stale", "old_container", "1234"⟩] }

/-- The healthy environment except that the second service (index 1) fails to
clone. -/
def envOneFailure : Deploy.Env :=
  { envOk with renv := fun i => if i = 1 then repoEnvCloneFail else repoEnvOk }

/-- The healthy environment except that the second service (index 1) builds a
group that does not expose its declared port. -/
def envNoPortAt1 : Deploy.Env :=
  { envOk with renv := fun i => if i = 1 then repoEnvNoPort else repoEnvOk }

/-- A healthy whole-run environment for the earlier revision. -/
def envV1Ok : V1.Env :=
  { lockExists := false, dockerInstalled := true, installOk := true
    composeAvailable := true, networkExists := true, networkCreateOk := true
    curlResult := some "203.0.113.7", domainIp := "198.51.100.9"
    proxyContainerExists := true, caddyRunOk := true
    renv := fun _ => repoEnvV1Ok }

/-- Characterisation of the `ENABLE_TLS` test. -/
theorem enableTls_eq_true_iff (p d : String) :
    enableTls p d = true ↔ p ≠ "unknown" ∧ p = d := by
  simp [enableTls, bne_iff_ne]

/-- Claim C2: the TLS mode detector returns `direct` exactly when the
public-IP lookup succeeded with an output `a` other than the failure sentinel
`"unknown"` and the DNS resolution of the probe subdomain produced the same
string `a`; when curl fails (output `"unknown"`) or the two strings differ,
the mode is `passthrough`. -/
theorem claim_C2_tls_direct_iff (cr : Option String) (dip : String) :
    detectTlsMode cr dip = TlsMode.direct ↔
      ∃ a, cr = some a ∧ a ≠ "unknown" ∧ dip = a := by
  cases cr with
  | none =>
      simp [detectTlsMode, publicIpOf, enableTls]
  | some a =>
      unfold detectTlsMode
      cases h : enableTls (publicIpOf (some a)) dip with
      | false =>
          rw [if_neg (by simp [h])]
          simp only [publicIpOf, Option.getD_some] at h
          rw [enableTls] at h
          simp only [Bool.and_eq_false_iff, bne_eq_false_iff_eq, beq_eq_false_iff_ne] at h
          constructor
          · intro hcontra
            exact absurd hcontra (by simp)
          · rintro ⟨b, hb, hbu, hbd⟩
            cases hb
            rcases h with h | h
            · exact absurd h hbu
            · exact absurd hbd.symm h
      | true =>
          rw [if_pos (by simp [h])]
          simp only [publicIpOf, Option.getD_some] at h
          rw [enableTls_eq_true_iff] at h
          exact iff_of_true rfl ⟨a, rfl, h.1, h.2.symm⟩

/-- Claim C8: when the public-IP lookup exits successfully with empty output
and the probe-domain resolution also yields the empty string, the detector
compares the two empty strings as equal and selects direct TLS mode. -/
theorem claim_C8_empty_lookups_direct :
    detectTlsMode (some "") "" = TlsMode.direct := by
  rfl

/-- Claim C7: whenever a run reaches its final summary, the process exit code
is 0, including when the per-service failure counter is nonzero. -/
theorem claim_C7_summary_exits_zero (fleet : List String) (env : Deploy.Env)
    (h : (Deploy.mainRun fleet env).reachedSummary = true) :
    (Deploy.mainRun fleet env).exitCode = 0 := by
  by_cases h1 : env.lockExists = true
  · simp [Deploy.mainRun, h1] at h
  · by_cases h2 : (!env.dockerOk && !env.installOk) = true
    · simp [Deploy.mainRun, h1, h2] at h
    · by_cases h3 : env.caddyRunOk = true
      · simp [Deploy.mainRun, h1, h2, h3]
      · simp [Deploy.mainRun, h1, h2, h3] at h

/-- Witness for C7 at a concrete input where one of four services fails to
clone: the run reaches the summary with `failed_repos = 1` and still exits
with code 0. -/
theorem claim_C7_witness :
    (Deploy.mainRun Deploy.REPOS envOneFailure).reachedSummary = true ∧
    (Deploy.mainRun Deploy.REPOS envOneFailure).failedRepos = 1 ∧
    (Deploy.mainRun Deploy.REPOS envOneFailure).exitCode = 0 :=
  ⟨by decide, by decide, claim_C7_summary_exits_zero Deploy.REPOS envOneFailure (by decide)⟩

/-- Claim C3: if the lock marker already exists when a run starts, the run
exits with code 1 and performs no clone, pull, build, network-connect or
route operation (its event trace is empty) and leaves the routing file
untouched; combined with the atomic `mkdir`-based marker creation this keeps
at most one orchestration run active per host. -/
theorem claim_C3_lock_fails_fast (fleet : List String) (env : Deploy.Env)
    (h : env.lockExists = true) :
    (Deploy.mainRun fleet env).exitCode = 1 ∧
    (Deploy.mainRun fleet env).events = [] ∧
    (Deploy.mainRun fleet env).caddyFile = env.initialCaddyfile := by
  simp [Deploy.mainRun, h]

/-- Every phase preserves the invariant that a marker created by this run has
the release trap armed. -/
theorem lockStep_preserves_inv (env : Deploy.Env) (s : Deploy.LockState)
    (st : Deploy.MStep) (h : s.lockExists = true → s.trapArmed = true) :
    (stepState (Deploy.lockStep env s st)).lockExists = true →
      (stepState (Deploy.lockStep env s st)).trapArmed = true := by
  cases st with
  | acquire =>
      cases hl : s.lockExists with
      | true => simpa [Deploy.lockStep, hl, stepState] using h
      | false => simp [Deploy.lockStep, hl, stepState]
  | installDocker =>
      cases hd : (env.dockerOk || env.installOk) <;>
        simpa [Deploy.lockStep, hd, stepState] using h
  | restartProxy =>
      cases hc : env.caddyRunOk <;>
        simpa [Deploy.lockStep, hc, stepState] using h
  | ensureDirs => simpa [Deploy.lockStep, stepState] using h
  | ensureNetwork => simpa [Deploy.lockStep, stepState] using h
  | detectTls => simpa [Deploy.lockStep, stepState] using h
  | truncateCaddy => simpa [Deploy.lockStep, stepState] using h
  | deployService i => simpa [Deploy.lockStep, stepState] using h
  | summary => simpa [Deploy.lockStep, stepState] using h

/-- The invariant holds at every interruption or exit point of the phase
list. -/
theorem runLockSteps_inv (env : Deploy.Env) :
    ∀ (steps : List Deploy.MStep) (s : Deploy.LockState) (sig : Option Nat),
      (s.lockExists = true → s.trapArmed = true) →
      ((Deploy.runLockSteps env steps s sig).lockExists = true →
        (Deploy.runLockSteps env steps s sig).trapArmed = true) := by
  intro steps
  induction steps with
  | nil => intro s sig h; simpa [Deploy.runLockSteps] using h
  | cons st rest ih =>
      intro s sig h
      match sig with
      | some 0 => simpa [Deploy.runLockSteps] using h
      | none =>
          have hstep := lockStep_preserves_inv env s st h
          simp only [Deploy.runLockSteps]
          cases hout : Deploy.lockStep env s st with
          | halt s2 => rw [hout] at hstep; exact hstep
          | next s2 => rw [hout] at hstep; exact ih s2 none hstep
      | some (k + 1) =>
          have hstep := lockStep_preserves_inv env s st h
          simp only [Deploy.runLockSteps]
          cases hout : Deploy.lockStep env s st with
          | halt s2 => rw [hout] at hstep; exact hstep
          | next s2 => rw [hout] at hstep; exact ih s2 (some k) hstep

/-- Claim C6: for every run that starts with the lock marker absent (and hence
acquires it), the marker is gone after process termination on every exit
path — normal completion, any fatal `exit 1`, or a terminating signal
arriving after any number of phases. -/
theorem claim_C6_lock_released (fleet : List String) (env : Deploy.Env)
    (sig : Option Nat) (h : env.lockExists = false) :
    (Deploy.finalLockState fleet env sig).lockExists = false := by
  unfold Deploy.finalLockState Deploy.exitCleanup
  have hinv := runLockSteps_inv env (Deploy.mainSteps fleet)
    ⟨env.lockExists, false⟩ sig (by simp [h])
  split
  · rfl
  · rename_i harm
    by_cases hl :
        (Deploy.runLockSteps env (Deploy.mainSteps fleet) ⟨env.lockExists, false⟩ sig).lockExists
          = true
    · exact absurd (hinv hl) harm
    · simpa using hl

/-- Witness for C6 at a concrete input: a healthy run killed by a signal right
after the TLS-detection phase still leaves no lock marker behind. -/
theorem claim_C6_witness :
    envOk.lockExists = false ∧
    (Deploy.finalLockState Deploy.REPOS envOk (some 5)).lockExists = false :=
  ⟨rfl, claim_C6_lock_released Deploy.REPOS envOk (some 5) rfl⟩

/-- Witness for C3 at a concrete input: the fleet of `public/deploy.sh` with
the lock marker present. -/
theorem claim_C3_witness :
    envLocked.lockExists = true ∧
    (Deploy.mainRun Deploy.REPOS envLocked).exitCode = 1 ∧
    (Deploy.mainRun Deploy.REPOS envLocked).events = [] ∧
    (Deploy.mainRun Deploy.REPOS envLocked).caddyFile = envLocked.initialCaddyfile :=
  ⟨rfl, claim_C3_lock_fails_fast Deploy.REPOS envLocked rfl⟩

set_option linter.unnecessarySeqFocus false in
/-- Return status of the post-sync stage of `deploy_repo`: success exactly
when the checkout can be entered, a compose manifest exists and
`docker compose up` succeeds (discovery does not affect the status). -/
theorem afterSync_ok (tls : Bool) (n p : String) (e : Deploy.RepoEnv)
    (ev : List Deploy.Event) :
    (Deploy.afterSync tls n p e ev).ok
      = (e.cdOk && e.composeFileExists && e.composeUpOk) := by
  unfold Deploy.afterSync
  cases hcd : e.cdOk <;> cases hcf : e.composeFileExists <;> cases hcu : e.composeUpOk <;>
    simp [hcd, hcf, hcu] <;>
      first
        | rfl
        | (cases hd : Deploy.discoverContainer p e.containers <;> simp [hd])

/-- The return status of `deploy_repo` is failure exactly on the counted
failure classes: sync failure, missing manifest, or build failure. -/
theorem deploy_repo_ok (tls : Bool) (r : String) (e : Deploy.RepoEnv) :
    (Deploy.deploy_repo tls r e).ok = !Deploy.countedFailure e := by
  cases hce : e.checkoutExists <;> cases hcl : e.cloneOk <;> cases hcd : e.cdOk <;>
    cases hpm : e.pullMainOk <;> cases hpms : e.pullMasterOk <;>
      cases hcf : e.composeFileExists <;> cases hcu : e.composeUpOk <;>
        simp [Deploy.deploy_repo, Deploy.countedFailure, Deploy.syncFailed,
          Deploy.manifestMissing, Deploy.buildFailed,
          hce, hcl, hcd, hpm, hpms, hcf, hcu, afterSync_ok]

/-- The deploy loop decomposes pointwise: the failure counter counts exactly
the indices whose own environment has a counted failure, and the event trace
and appended route blocks are the concatenation, in fleet order, of each
service's own `deploy_repo` outcome. -/
theorem deployLoop_eq (tls : Bool) (renv : Nat → Deploy.RepoEnv) :
    ∀ (fleet : List String) (i0 : Nat),
      Deploy.deployLoop tls renv fleet i0 =
        ((fleet.enumFrom i0).countP fun q => Deploy.countedFailure (renv q.1),
         ((fleet.enumFrom i0).map fun q =>
            (Deploy.deploy_repo tls q.2 (renv q.1)).events).flatten,
         ((fleet.enumFrom i0).map fun q =>
            (Deploy.deploy_repo tls q.2 (renv q.1)).blocks).flatten) := by
  intro fleet
  induction fleet with
  | nil => intro i0; simp [Deploy.deployLoop]
  | cons r rest ih =>
      intro i0
      simp only [Deploy.deployLoop, ih (i0 + 1), List.enumFrom_cons, List.map_cons,
        List.flatten_cons, List.countP_cons]
      cases hc : Deploy.countedFailure (renv i0) <;>
        simp [deploy_repo_ok, hc, Nat.add_comm]

/-- Claim C1 as stated is false: a pure discovery failure is a per-service
recoverable error in the specification's taxonomy, but `deploy_repo` returns
success for it, so the final counter reports 0 while one service hit a
recoverable error.  Concretely: a one-service fleet whose service clones and
builds fine but whose container group exposes no port at all. -/
theorem claim_C1_counterexample :
    (Deploy.mainRun ["chess|https://github.com/namanvashistha/chess.git|9000"]
        { envOk with renv := fun _ => { repoEnvOk with containers := [] } }).failedRepos = 0 ∧
    ((["chess|https://github.com/namanvashistha/chess.git|9000"].enum).countP fun q =>
        Deploy.recoverableError (Deploy.portOf q.2)
          (({ envOk with renv := fun _ => { repoEnvOk with containers := [] } }).renv q.1)) = 1 := by
  exact ⟨by decide, by decide⟩

/-- Claim C1, amended: a sync, build, or discovery failure of one service
never prevents any later service from being synced, built and routed — the
run's trace is the concatenation of every service's own `deploy_repo`
events, each determined solely by that service's record and outcomes — and
the final failure counter equals the number of services that hit a sync
failure, a missing build manifest, or a build/start failure.  (A discovery
failure, by contrast, is NOT counted: the route is omitted and the service
is reported as a success.) -/
theorem claim_C1_isolation_and_count (fleet : List String) (env : Deploy.Env)
    (hlock : env.lockExists = false)
    (hdocker : env.dockerOk = true ∨ env.installOk = true) :
    (Deploy.mainRun fleet env).failedRepos
        = fleet.enum.countP (fun q => Deploy.countedFailure (env.renv q.1)) ∧
    (Deploy.mainRun fleet env).events
        = Deploy.Event.truncateCaddyfile ::
            ((fleet.enum.map fun q =>
                (Deploy.deploy_repo (Deploy.tlsOf env) q.2 (env.renv q.1)).events).flatten
              ++ Deploy.proxyEvents) := by
  have hd2 : (!env.dockerOk && !env.installOk) = false := by
    rcases hdocker with h | h <;> simp [h]
  have hloop := deployLoop_eq (Deploy.tlsOf env) env.renv fleet 0
  cases hc : env.caddyRunOk <;>
    simp [Deploy.mainRun, hlock, hd2, hc, hloop, List.enum]

set_option linter.unnecessarySeqFocus false in
/-- Every route block appended by one `deploy_repo` call carries that
service's own name, and a block is appended only when discovery actually
found a container exposing the declared port. -/
theorem deploy_repo_blocks_mem (tls : Bool) (r : String) (e : Deploy.RepoEnv) :
    ∀ b ∈ (Deploy.deploy_repo tls r e).blocks,
      b.repoName = Deploy.nameOf r ∧
        ∃ cn, Deploy.discoverContainer (Deploy.portOf r) e.containers = some cn := by
  cases hce : e.checkoutExists <;> cases hcl : e.cloneOk <;> cases hcd : e.cdOk <;>
    cases hpm : e.pullMainOk <;> cases hpms : e.pullMasterOk <;>
      cases hcf : e.composeFileExists <;> cases hcu : e.composeUpOk <;>
        simp [Deploy.deploy_repo, Deploy.afterSync, hce, hcl, hcd, hpm, hpms, hcf, hcu] <;>
          (cases hd : Deploy.discoverContainer (Deploy.portOf r) e.containers <;> simp [hd])

set_option linter.unnecessarySeqFocus false in
/-- The names carried by the blocks of one `deploy_repo` call: none, or
exactly the service's own name. -/
theorem deploy_repo_blocks_names (tls : Bool) (r : String) (e : Deploy.RepoEnv) :
    (Deploy.deploy_repo tls r e).blocks.map RouteBlock.repoName = []
      ∨ (Deploy.deploy_repo tls r e).blocks.map RouteBlock.repoName = [Deploy.nameOf r] := by
  cases hce : e.checkoutExists <;> cases hcl : e.cloneOk <;> cases hcd : e.cdOk <;>
    cases hpm : e.pullMainOk <;> cases hpms : e.pullMasterOk <;>
      cases hcf : e.composeFileExists <;> cases hcu : e.composeUpOk <;>
        simp [Deploy.deploy_repo, Deploy.afterSync, hce, hcl, hcd, hpm, hpms, hcf, hcu] <;>
          (cases hd : Deploy.discoverContainer (Deploy.portOf r) e.containers <;> simp [hd])

/-- The names of the blocks produced by the deploy loop form a sublist of the
fleet's names, in order. -/
theorem deployLoop_blocks_names_sublist (tls : Bool) (renv : Nat → Deploy.RepoEnv) :
    ∀ (fleet : List String) (i0 : Nat),
      ((Deploy.deployLoop tls renv fleet i0).2.2.map RouteBlock.repoName).Sublist
        (fleet.map Deploy.nameOf) := by
  intro fleet
  induction fleet with
  | nil => intro i0; simp [Deploy.deployLoop]
  | cons r rest ih =>
      intro i0
      simp only [Deploy.deployLoop, List.map_cons, List.map_append]
      rcases deploy_repo_blocks_names tls r (renv i0) with h | h
      · rw [h]
        simpa using List.Sublist.cons (Deploy.nameOf r) (ih (i0 + 1))
      · rw [h]
        exact List.Sublist.cons₂ (Deploy.nameOf r) (ih (i0 + 1))

/-- The routing file produced by a run that reaches the deploy loop is the
concatenation of each service's own blocks. -/
theorem mainRun_caddyFile (fleet : List String) (env : Deploy.Env)
    (hlock : env.lockExists = false)
    (hdocker : env.dockerOk = true ∨ env.installOk = true) :
    (Deploy.mainRun fleet env).caddyFile
      = ((fleet.enum.map fun q =>
          (Deploy.deploy_repo (Deploy.tlsOf env) q.2 (env.renv q.1)).blocks).flatten) := by
  have hd2 : (!env.dockerOk && !env.installOk) = false := by
    rcases hdocker with h | h <;> simp [h]
  have hloop := deployLoop_eq (Deploy.tlsOf env) env.renv fleet 0
  cases hc : env.caddyRunOk <;>
    simp [Deploy.mainRun, hlock, hd2, hc, hloop, List.enum]

/-- Claim C4: under unique service names, if no container of service `i`'s
rebuilt group exposes its declared internal port, the regenerated routing
file contains no route entry carrying service `i`'s name; and the
regenerated file never depends on what a previous run left in it. -/
theorem claim_C4_route_regeneration (fleet : List String) (env : Deploy.Env) (i : Nat)
    (hnodup : (fleet.map Deploy.nameOf).Nodup)
    (hlock : env.lockExists = false)
    (hdocker : env.dockerOk = true ∨ env.installOk = true)
    (hi : i < fleet.length)
    (hdisc : ∀ c ∈ (env.renv i).containers,
        c.ports.contains (Deploy.portOf fleet[i]) = false) :
    (∀ b ∈ (Deploy.mainRun fleet env).caddyFile, b.repoName ≠ Deploy.nameOf fleet[i]) ∧
    (∀ f, (Deploy.mainRun fleet { env with initialCaddyfile := f }).caddyFile
            = (Deploy.mainRun fleet env).caddyFile) := by
  have hd2 : (!env.dockerOk && !env.installOk) = false := by
    rcases hdocker with h | h <;> simp [h]
  constructor
  · intro b hb hname
    rw [mainRun_caddyFile fleet env hlock hdocker] at hb
    rw [List.mem_flatten] at hb
    obtain ⟨l, hl, hbl⟩ := hb
    rw [List.mem_map] at hl
    obtain ⟨q, hq, rfl⟩ := hl
    obtain ⟨hrn, cn, hcn⟩ := deploy_repo_blocks_mem _ _ _ b hbl
    rw [List.mem_enum_iff_getElem?] at hq
    have hj : q.1 < fleet.length := by
      have := List.getElem?_eq_some.mp hq
      exact this.1
    obtain ⟨hj2, hget⟩ := List.getElem?_eq_some.mp hq
    have hnames : (fleet.map Deploy.nameOf).get ⟨q.1, by simpa using hj⟩
        = (fleet.map Deploy.nameOf).get ⟨i, by simpa using hi⟩ := by
      simp only [List.get_eq_getElem, List.getElem_map]
      rw [hget, ← hname, hrn]
    have hqi : q.1 = i := by
      have h2 := (List.Nodup.get_inj_iff hnodup).mp hnames
      simpa using h2
    subst hqi
    rw [hget] at hdisc
    unfold Deploy.discoverContainer at hcn
    rw [Option.map_eq_some'] at hcn
    obtain ⟨c, hfind, _⟩ := hcn
    have hmem := List.mem_of_find?_eq_some hfind
    have hp := List.find?_some hfind
    rw [hdisc c hmem] at hp
    exact Bool.false_ne_true hp
  · intro f
    cases hc : env.caddyRunOk <;>
      simp [Deploy.mainRun, Deploy.tlsOf, hlock, hd2, hc]

/-- Witness for C4 at a concrete input: the standard fleet where service 1
(`foodly`, internal port 80) builds a group exposing only port 5432; the
regenerated routing file carries no `foodly` entry, independent of the
previous file contents. -/
theorem claim_C4_witness :
    (Deploy.REPOS.map Deploy.nameOf).Nodup ∧
    (∀ c ∈ (envNoPortAt1.renv 1).containers,
        c.ports.contains (Deploy.portOf Deploy.REPOS[1]) = false) ∧
    ((∀ b ∈ (Deploy.mainRun Deploy.REPOS envNoPortAt1).caddyFile,
        b.repoName ≠ Deploy.nameOf Deploy.REPOS[1]) ∧
      (∀ f, (Deploy.mainRun Deploy.REPOS
              { envNoPortAt1 with initialCaddyfile := f }).caddyFile
          = (Deploy.mainRun Deploy.REPOS envNoPortAt1).caddyFile)) :=
  ⟨by decide, by decide,
    claim_C4_route_regeneration Deploy.REPOS envNoPortAt1 1 (by decide) rfl (Or.inl rfl)
      (by decide) (by decide)⟩

/-- Claim C5: with unique service names, a second run with identical
per-service outcomes — started from whatever routing file the first run
produced — yields a routing file with identical contents, and that file
contains no duplicate route entries (its entry names are pairwise
distinct). -/
theorem claim_C5_idempotent (fleet : List String) (env : Deploy.Env)
    (hnodup : (fleet.map Deploy.nameOf).Nodup)
    (hreach : (Deploy.mainRun fleet env).reachedSummary = true) :
    (Deploy.mainRun fleet
        { env with initialCaddyfile := (Deploy.mainRun fleet env).caddyFile }).caddyFile
      = (Deploy.mainRun fleet env).caddyFile ∧
    ((Deploy.mainRun fleet env).caddyFile.map RouteBlock.repoName).Nodup := by
  by_cases h1 : env.lockExists = true
  · simp [Deploy.mainRun, h1] at hreach
  · by_cases h2 : (!env.dockerOk && !env.installOk) = true
    · simp [Deploy.mainRun, h1, h2] at hreach
    · have hlock : env.lockExists = false := by simpa using h1
      have hdocker : env.dockerOk = true ∨ env.installOk = true := by
        cases hdo : env.dockerOk with
        | true => exact Or.inl rfl
        | false =>
            cases hio : env.installOk with
            | true => exact Or.inr rfl
            | false => exact absurd (by simp [hdo, hio]) h2
      constructor
      · cases hc : env.caddyRunOk <;>
          simp [Deploy.mainRun, Deploy.tlsOf, h1, h2, hc]
      · have hcad := mainRun_caddyFile fleet env hlock hdocker
        have hsub := deployLoop_blocks_names_sublist (Deploy.tlsOf env) env.renv fleet 0
        rw [deployLoop_eq] at hsub
        rw [hcad]
        refine List.Nodup.sublist ?_ hnodup
        simpa [List.enum] using hsub

/-- Witness for C5 at a concrete input: the standard healthy fleet; rerunning
with the produced routing file as the starting file yields the same file,
whose entry names are pairwise distinct. -/
theorem claim_C5_witness :
    (Deploy.REPOS.map Deploy.nameOf).Nodup ∧
    (Deploy.mainRun Deploy.REPOS envOk).reachedSummary = true ∧
    ((Deploy.mainRun Deploy.REPOS
        { envOk with initialCaddyfile := (Deploy.mainRun Deploy.REPOS envOk).caddyFile }).caddyFile
      = (Deploy.mainRun Deploy.REPOS envOk).caddyFile ∧
    ((Deploy.mainRun Deploy.REPOS envOk).caddyFile.map RouteBlock.repoName).Nodup) :=
  ⟨by decide, by decide,
    claim_C5_idempotent Deploy.REPOS envOk (by decide) (by decide)⟩

/-- Characters before a pipe-then-suffix are exactly what `takeWhile` keeps
when none of them is a pipe. -/
theorem takeWhile_append_pipe (l rest : List Char) (h : ∀ a ∈ l, a ≠ '|') :
    (l ++ '|' :: rest).takeWhile (fun ch => ch != '|') = l := by
  induction l with
  | nil => simp [List.takeWhile_cons]
  | cons a l ih =>
      have ha : a ≠ '|' := h a (List.mem_cons_self a l)
      have ih2 := ih fun x hx => h x (List.mem_cons_of_mem a hx)
      simp [List.takeWhile_cons, bne_iff_ne, ha, ih2]

/-- The `${repo_info##*|}` expansion of a four-field record is its fourth
field whenever that field contains no pipe. -/
theorem lastField_mkRecord4 (n u c p : String) (hp : ∀ ch ∈ p.data, ch ≠ '|') :
    V1.lastField (V1.mkRecord4 n u c p) = p := by
  unfold V1.lastField V1.mkRecord4
  have hpipe : ("|" : String).data = ['|'] := rfl
  have hdata : (n ++ "|" ++ u ++ "|" ++ c ++ "|" ++ p).data
      = (n.data ++ '|' :: u.data ++ '|' :: c.data) ++ '|' :: p.data := by
    simp [String.data_append, hpipe, List.append_assoc]
  rw [hdata]
  have hrev : ((n.data ++ '|' :: u.data ++ '|' :: c.data) ++ '|' :: p.data).reverse
      = p.data.reverse ++ '|' :: (n.data ++ '|' :: u.data ++ '|' :: c.data).reverse := by
    simp [List.reverse_append, List.append_assoc]
  rw [hrev]
  rw [takeWhile_append_pipe _ _ (fun a ha => hp a (List.mem_reverse.mp ha))]
  rw [List.reverse_reverse]

/-- When the post-sync stage starts from a single sync event, that event stays
at the head of the trace on every branch. -/
theorem afterSyncV1_events_single_head (n : String) (env : V1.RepoEnv) (x : V1.Event) :
    (V1.afterSync n env [x]).events.head? = some x := by
  unfold V1.afterSync
  cases hcd : env.cdOk <;> cases hcf : env.composeFileExists <;>
    cases hp : env.hasComposePlugin <;> cases hl : env.hasComposeLegacy <;>
      simp [hcd, hcf, hp, hl]

/-- Claim C9: in the four-field revision, `deploy_repo` extracts the clone URL
with `${repo_info##*|}` — the substring after the last pipe — so for every
four-field record `name|url|container|port` (with a pipe-free port field) the
value passed to `git clone` is the internal-port field, not the VCS URL. -/
theorem claim_C9_clone_url_is_port_field (n u c p : String) (env : V1.RepoEnv)
    (hp : ∀ ch ∈ p.data, ch ≠ '|') (hco : env.checkoutExists = false) :
    V1.lastField (V1.mkRecord4 n u c p) = p ∧
    (V1.deploy_repo (V1.mkRecord4 n u c p) env).events.head?
      = some (V1.Event.clone (V1.firstField (V1.mkRecord4 n u c p)) p) := by
  have hlast := lastField_mkRecord4 n u c p hp
  refine ⟨hlast, ?_⟩
  unfold V1.deploy_repo
  rw [hlast, hco]
  cases hcl : env.cloneOk <;>
    simp [hcl, afterSyncV1_events_single_head]

/-- In a concatenated trace whose first part contains no `Q`-event and whose
second part contains no `P`-event, every `P`-event index precedes every
`Q`-event index. -/
theorem append_index_lt {α : Type} (P Q : α → Bool) (l₁ l₂ : List α)
    (h₁ : ∀ e ∈ l₁, Q e = false) (h₂ : ∀ e ∈ l₂, P e = false) :
    ∀ (i j : Nat) (hi : i < (l₁ ++ l₂).length) (hj : j < (l₁ ++ l₂).length),
      P ((l₁ ++ l₂).get ⟨i, hi⟩) = true → Q ((l₁ ++ l₂).get ⟨j, hj⟩) = true → i < j := by
  intro i j hi hj hP hQ
  have hil : i < l₁.length := by
    by_contra hge
    push_neg at hge
    have hmem : (l₁ ++ l₂).get ⟨i, hi⟩ ∈ l₂ := by
      rw [List.get_eq_getElem, List.getElem_append_right hge]
      exact List.getElem_mem _
    rw [h₂ _ hmem] at hP
    exact Bool.false_ne_true hP
  have hjl : l₁.length ≤ j := by
    by_contra hlt
    push_neg at hlt
    have hmem : (l₁ ++ l₂).get ⟨j, hj⟩ ∈ l₁ := by
      rw [List.get_eq_getElem, List.getElem_append_left hlt]
      exact List.getElem_mem _
    rw [h₁ _ hmem] at hQ
    exact Bool.false_ne_true hQ
  exact lt_of_lt_of_le hil hjl

/-- Every event of one `deploy_repo` call of the earlier revision is a clone,
pull or compose-up of that service. -/
theorem deployRepoV1_events_shape (r : String) (env : V1.RepoEnv) :
    ∀ e ∈ (V1.deploy_repo r env).events,
      e = V1.Event.clone (V1.firstField r) (V1.lastField r)
        ∨ e = V1.Event.pull (V1.firstField r)
        ∨ e = V1.Event.composeUp (V1.firstField r) := by
  intro e he
  cases hce : env.checkoutExists <;> cases hcl : env.cloneOk <;> cases hcd : env.cdOk <;>
    cases hpm : env.pullMainOk <;> cases hpms : env.pullMasterOk <;>
      cases hcf : env.composeFileExists <;> cases hp : env.hasComposePlugin <;>
        cases hl : env.hasComposeLegacy <;>
          simp only [V1.deploy_repo, V1.afterSync, hce, hcl, hcd, hpm, hpms, hcf, hp, hl,
            Bool.not_true, Bool.not_false, Bool.and_self, Bool.and_true, Bool.true_and,
            Bool.and_false, Bool.false_and, if_true, if_false, Bool.false_eq_true,
            Bool.true_eq_false, ite_true, ite_false] at he <;>
          simp_all <;> tauto

/-- No event of the Caddyfile-generation loop is a sync or build operation. -/
theorem setupTraceV1_not_deploy (fleet : List String) :
    ∀ e ∈ V1.setupTrace fleet, V1.isDeployOp e = false := by
  intro e he
  unfold V1.setupTrace at he
  rcases List.mem_cons.mp he with rfl | he2
  · rfl
  · rw [List.mem_flatten] at he2
    obtain ⟨l, hl, hel⟩ := he2
    rw [List.mem_map] at hl
    obtain ⟨r, _, rfl⟩ := hl
    simp only [List.mem_cons, List.mem_singleton, List.not_mem_nil, or_false] at hel
    rcases hel with rfl | rfl <;> rfl

/-- No event of the proxy-restart step is a sync or build operation. -/
theorem proxyTraceV1_not_deploy (env : V1.Env) :
    ∀ e ∈ V1.proxyTrace env, V1.isDeployOp e = false := by
  intro e he
  unfold V1.proxyTrace at he
  cases hpx : env.proxyContainerExists <;> rw [hpx] at he <;> simp at he
  · subst he; rfl
  · rcases he with rfl | rfl <;> rfl

/-- No event of the earlier revision's deploy loop writes a route block. -/
theorem deployLoopV1_not_route (renv : Nat → V1.RepoEnv) :
    ∀ (fleet : List String) (i0 : Nat), ∀ e ∈ (V1.deployLoop renv fleet i0).2,
      V1.isRouteWrite e = false := by
  intro fleet
  induction fleet with
  | nil => intro i0 e he; simp [V1.deployLoop] at he
  | cons r rest ih =>
      intro i0 e he
      simp only [V1.deployLoop] at he
      rw [List.mem_append] at he
      rcases he with he | he
      · rcases deployRepoV1_events_shape r (renv i0) e he with h | h | h <;> subst h <;> rfl
      · exact ih (i0 + 1) e he

/-- Claim C10: in the earlier revision, a run that reaches `setup_caddy`
writes exactly one route block per configured fleet entry, unconditionally —
the routing file equals the blockwise image of the fleet list, whatever each
service's later sync/build outcome is — and every route write precedes every
clone, pull or compose-up event in the run's trace. -/
theorem claim_C10_routes_before_deploys (fleet : List String) (env : V1.Env)
    (h1 : env.lockExists = false)
    (h2 : env.dockerInstalled = true ∨ env.installOk = true)
    (h3 : env.composeAvailable = true)
    (h4 : env.networkExists = true ∨ env.networkCreateOk = true) :
    (V1.run fleet env).caddyFile
        = fleet.map (V1.mkBlock (enableTls (publicIpOf env.curlResult) env.domainIp)) ∧
    (∀ (i j : Nat) (hi : i < (V1.run fleet env).trace.length)
        (hj : j < (V1.run fleet env).trace.length),
      V1.isRouteWrite ((V1.run fleet env).trace.get ⟨i, hi⟩) = true →
      V1.isDeployOp ((V1.run fleet env).trace.get ⟨j, hj⟩) = true → i < j) := by
  have hd2 : (!env.dockerInstalled && !env.installOk) = false := by
    rcases h2 with h | h <;> simp [h]
  have hn2 : (!env.networkExists && !env.networkCreateOk) = false := by
    rcases h4 with h | h <;> simp [h]
  have hpre : ∀ e ∈ V1.setupTrace fleet ++ V1.proxyTrace env, V1.isDeployOp e = false := by
    intro e he
    rcases List.mem_append.mp he with h | h
    · exact setupTraceV1_not_deploy fleet e h
    · exact proxyTraceV1_not_deploy env e h
  cases hc : env.caddyRunOk with
  | false =>
      constructor
      · simp [V1.run, h1, hd2, h3, hn2, hc]
      · have htr : (V1.run fleet env).trace
            = (V1.setupTrace fleet ++ V1.proxyTrace env) ++ [] := by
          simp [V1.run, h1, hd2, h3, hn2, hc]
        rw [htr]
        exact append_index_lt V1.isRouteWrite V1.isDeployOp _ _ hpre (by intro e he; simp at he)
  | true =>
      constructor
      · simp [V1.run, h1, hd2, h3, hn2, hc]
      · have htr : (V1.run fleet env).trace
            = (V1.setupTrace fleet ++ V1.proxyTrace env) ++ (V1.deployLoop env.renv fleet 0).2 := by
          simp [V1.run, h1, hd2, h3, hn2, hc]
        rw [htr]
        exact append_index_lt V1.isRouteWrite V1.isDeployOp _ _ hpre
          (deployLoopV1_not_route env.renv fleet 0)

/-- Witness for C10 at a concrete input: the four-record fleet of the earlier
revision under a healthy environment. -/
theorem claim_C10_witness :
    envV1Ok.lockExists = false ∧
    (envV1Ok.dockerInstalled = true ∨ envV1Ok.installOk = true) ∧
    envV1Ok.composeAvailable = true ∧
    (envV1Ok.networkExists = true ∨ envV1Ok.networkCreateOk = true) ∧
    ((V1.run V1.REPOS envV1Ok).caddyFile
        = V1.REPOS.map
            (V1.mkBlock (enableTls (publicIpOf envV1Ok.curlResult) envV1Ok.domainIp)) ∧
      (∀ (i j : Nat) (hi : i < (V1.run V1.REPOS envV1Ok).trace.length)
          (hj : j < (V1.run V1.REPOS envV1Ok).trace.length),
        V1.isRouteWrite ((V1.run V1.REPOS envV1Ok).trace.get ⟨i, hi⟩) = true →
        V1.isDeployOp ((V1.run V1.REPOS envV1Ok).trace.get ⟨j, hj⟩) = true → i < j)) :=
  ⟨rfl, Or.inl rfl, rfl, Or.inl rfl,
    claim_C10_routes_before_deploys V1.REPOS envV1Ok rfl (Or.inl rfl) rfl (Or.inl rfl)⟩

/-- Witness for C9 at the first concrete record of the four-field fleet: the
clone URL computed for the `chess` record is the string `"9000"`. -/
theorem claim_C9_witness :
    (∀ ch ∈ ("9000" : String).data, ch ≠ '|') ∧
    ({ repoEnvV1Ok with checkoutExists := false } : V1.RepoEnv).checkoutExists = false ∧
    (V1.lastField (V1.mkRecord4 "chess" "https://github.com/namanvashistha/chess.git"
        "chess_go-app_1" "9000") = "9000" ∧
      (V1.deploy_repo (V1.mkRecord4 "chess" "https://github.com/namanvashistha/chess.git"
          "chess_go-app_1" "9000")
        { repoEnvV1Ok with checkoutExists := false }).events.head?
        = some (V1.Event.clone
            (V1.firstField (V1.mkRecord4 "chess"
              "https://github.com/namanvashistha/chess.git" "chess_go-app_1" "9000"))
            "9000")) :=
  ⟨by decide, rfl,
    claim_C9_clone_url_is_port_field "chess" "https://github.com/namanvashistha/chess.git"
      "chess_go-app_1" "9000" { repoEnvV1Ok with checkoutExists := false } (by decide) rfl⟩

/-- Witness for the amended C1 at a concrete input: in the standard fleet with
the second service failing to clone, the counter is exactly 1 and the traces
of the remaining three services are present unchanged. -/
theorem claim_C1_witness :
    envOneFailure.lockExists = false ∧
    (envOneFailure.dockerOk = true ∨ envOneFailure.installOk = true) ∧
    ((Deploy.mainRun Deploy.REPOS envOneFailure).failedRepos
        = Deploy.REPOS.enum.countP (fun q => Deploy.countedFailure (envOneFailure.renv q.1)) ∧
      (Deploy.mainRun Deploy.REPOS envOneFailure).events
        = Deploy.Event.truncateCaddyfile ::
            ((Deploy.REPOS.enum.map fun q =>
                (Deploy.deploy_repo (Deploy.tlsOf envOneFailure) q.2
                  (envOneFailure.renv q.1)).events).flatten
              ++ Deploy.proxyEvents)) :=
  ⟨rfl, Or.inl rfl,
    claim_C1_isolation_and_count Deploy.REPOS envOneFailure rfl (Or.inl rfl)⟩
